import Mathlib

/-!
Verification of the malloy-mcp-server connection-establishment, catalog-loading
and query-execution pipeline.  Python functions from `src/malloy_mcp_server` are
shallowly embedded as Lean definitions; external collaborators (the publisher
transport client and the standard-library JSON decoder) are passed in as
function parameters, matching the spec's treatment of them as collaborators
reached only through their call contract.
-/

/-- A minimal structured-data value, standing for the decoded JSON payloads
(`dict` / `list` values produced by `json.loads`). -/
inductive Json where
  | null
  | bool (b : Bool)
  | num (n : Int)
  | str (s : String)
  | arr (xs : List Json)
  | obj (fields : List (String × Json))

/-- Embeds `errors.py`: `MalloyError(message, context)`, the base error for the
server; `context` is the structured context dictionary, kept as an association
list of string renderings. -/
structure MalloyError where
  message : String
  context : List (String × String)
deriving DecidableEq

namespace Tools

/-- Embeds the `QueryParams` payload built by `tools.py`
(`execute_malloy_query`, lines 53-58): project name, package name, model path
and the raw query text. -/
structure QueryParams where
  project_name : String
  package_name : String
  path : String
  query : String
deriving DecidableEq

/-- The raw query result returned by the transport client
(`result.data_styles`, `result.model_def`, `result.query_result` in
`tools.py`), three JSON-encoded string fields. -/
structure RawQueryResult where
  data_styles : String
  model_def : String
  query_result : String
deriving DecidableEq

/-- The decoded result dictionary returned by `tools.py`
(`execute_malloy_query`, lines 88-92). -/
structure QueryOutput where
  data_styles : Json
  model_def : Json
  query_result : Json

/-- Embeds `tools.py` line 50: `package_name = model_path.split("/")[0]`. -/
def packageName (model_path : String) : String :=
  (model_path.splitOn "/").headD ""

/-- Embeds `tools.py` lines 53-58: the `QueryParams` constructed from the
request and the application context's project name. -/
def mkParams (query model_path project_name : String) : QueryParams :=
  { project_name := project_name
    package_name := packageName model_path
    path := model_path
    query := query }

/-- Embeds `tools.py` lines 63-72: the `MalloyError` raised when the remote
`execute_query` call fails, wrapping the transport error with
query/model/project/package context. -/
def execQueryError (e query model_path project_name : String) : MalloyError :=
  { message := "Query execution failed: " ++ e
    context := [("query", query), ("model_path", model_path),
                ("project", project_name), ("package", packageName model_path)] }

/-- Embeds `tools.py` lines 79-83: the `MalloyError` raised when
`json.loads` fails on the result payload (`JSONDecodeError`). -/
def parseQueryError (e model_path : String) : MalloyError :=
  { message := "Failed to parse query results: " ++ e
    context := [("model_path", model_path)] }

/-- Embeds `tools.py` lines 75-78: the result-parsing block.  `data_styles`
and `model_def` fall back to an empty dict when the field is falsy (empty
string); `query_result` is decoded unconditionally.  A decode failure at any
field aborts the whole block, as the shared `try` does in the source.
`jsonLoads` stands for `json.loads`, an external library function. -/
def parseResult (jsonLoads : String → Except String Json) (r : RawQueryResult) :
    Except String (Json × Json × Json) :=
  match (if r.data_styles = "" then Except.ok (Json.obj []) else jsonLoads r.data_styles) with
  | .error e => .error e
  | .ok ds =>
    match (if r.model_def = "" then Except.ok (Json.obj []) else jsonLoads r.model_def) with
    | .error e => .error e
    | .ok md =>
      match jsonLoads r.query_result with
      | .error e => .error e
      | .ok qr => .ok (ds, md, qr)

/-- Embeds `tools.py` lines 42-102 (`execute_malloy_query`): build the query
params, call the client's `execute_query` (passed in as `execQuery`, with the
client's behaviour abstracted to its call contract), wrap a remote failure as
an execution error, decode the three payload fields, wrap a decode failure as
a parse error, otherwise return the decoded dictionary. -/
def execute_malloy_query (jsonLoads : String → Except String Json)
    (execQuery : QueryParams → Except String RawQueryResult)
    (query model_path project_name : String) : Except MalloyError QueryOutput :=
  match execQuery (mkParams query model_path project_name) with
  | .error e => .error (execQueryError e query model_path project_name)
  | .ok result =>
    match parseResult jsonLoads result with
    | .error e => .error (parseQueryError e model_path)
    | .ok (ds, md, qr) =>
      .ok { data_styles := ds, model_def := md, query_result := qr }

end Tools

namespace QueryExecutor

/-- Embeds `tools/query_executor.py` lines 55-60: the `QueryParams` built with
the hardcoded default project name `"home"` and the package name taken as the
first component of the model path. -/
def mkParams (query model_path : String) : Tools.QueryParams :=
  { project_name := "home"
    package_name := Tools.packageName model_path
    path := model_path
    query := query }

/-- Embeds the three guarded decodes of `tools/query_executor.py` lines 67-69:
`json.loads(s) if s else dflt` — the field falls back to the given empty value
exactly when it is falsy (empty string). -/
def parseOrDefault (jsonLoads : String → Except String Json) (s : String)
    (dflt : Json) : Except String Json :=
  if s = "" then .ok dflt else jsonLoads s

/-- Embeds `tools/query_executor.py` lines 43-90 (`execute_malloy_query`):
build the params, run the query through the client's `execute_query`
(abstracted as `execQuery`), decode the three payload fields with per-field
empty fallbacks (`data_styles` and `model_def` default to an empty dict,
`query_result` to an empty list), and wrap any failure — remote or decode —
with the single blanket handler raising
`ValueError("Failed to execute Malloy query: ...")`. -/
def execute_malloy_query (jsonLoads : String → Except String Json)
    (execQuery : Tools.QueryParams → Except String Tools.RawQueryResult)
    (query model_path : String) : Except String Tools.QueryOutput :=
  match execQuery (mkParams query model_path) with
  | .error e => .error ("Failed to execute Malloy query: " ++ e)
  | .ok result =>
    match parseOrDefault jsonLoads result.data_styles (Json.obj []) with
    | .error e => .error ("Failed to execute Malloy query: " ++ e)
    | .ok ds =>
      match parseOrDefault jsonLoads result.model_def (Json.obj []) with
      | .error e => .error ("Failed to execute Malloy query: " ++ e)
      | .ok md =>
        match parseOrDefault jsonLoads result.query_result (Json.arr []) with
        | .error e => .error ("Failed to execute Malloy query: " ++ e)
        | .ok qr => .ok { data_styles := ds, model_def := md, query_result := qr }

end QueryExecutor

namespace Resources

/-- The publisher client's `Project` value (external pydantic model): name and
optional description, as consumed by `resources.py`. -/
structure Project where
  name : String
  description : Option String
deriving DecidableEq

/-- The publisher client's `Package` value: name, optional description and
version. -/
structure Package where
  name : String
  description : Option String
  version : Option String
deriving DecidableEq

/-- The publisher client's `Model` value: path (unique within its package),
package name and type tag. -/
structure Model where
  path : String
  packageName : String
  type : String
deriving DecidableEq

/-- `model_dump()` of a `Package`, as returned by the package resource
handler. -/
def Package.dump (p : Package) : Json :=
  Json.obj [("name", Json.str p.name),
            ("description", (p.description.map Json.str).getD Json.null),
            ("version", (p.version.map Json.str).getD Json.null)]

/-- `model_dump()` of a `Model`, as returned by the model resource handler. -/
def Model.dump (m : Model) : Json :=
  Json.obj [("path", Json.str m.path),
            ("packageName", Json.str m.packageName),
            ("type", Json.str m.type)]

/-- The project-metadata payload built by `get_project_metadata` in
`resources.py` lines 22-29: the project dump extended with the package and
model dumps. -/
def projectMetadata (project : Project) (packages : List Package)
    (models : List Model) : Json :=
  Json.obj [("name", Json.str project.name),
            ("description", (project.description.map Json.str).getD Json.null),
            ("packages", Json.arr (packages.map Package.dump)),
            ("models", Json.arr (models.map Model.dump))]

/-- An MCP resource as registered by `resources.py`: a URI plus the handler
closure evaluated when the resource is later queried. -/
structure Resource where
  uri : String
  get : Unit → Json

/-- Embeds `resources.py` lines 49-61 (`register_package`): one resource per
package, keyed by the package name. -/
def register_package (package : Package) : Resource :=
  { uri := "malloy://project/home/package/" ++ package.name
    get := fun _ => package.dump }

/-- Embeds `resources.py` lines 64-76 (`register_model`): one resource per
model, keyed by the model path. -/
def register_model (model : Model) : Resource :=
  { uri := "malloy://project/home/model/" ++ model.path
    get := fun _ => model.dump }

/-- The fixed payload returned by `get_healthcheck` in `resources.py`
lines 41-46. -/
def healthPayload : Json :=
  Json.obj [("status", Json.str "healthy"), ("version", Json.str "0.1.0")]

/-- Embeds `resources.py` lines 9-46 (`register_resources`): registers the
project-metadata resource, one resource per package, one per model, and the
health-check resource, in the source's registration order. -/
def register_resources (project : Project) (packages : List Package)
    (models : List Model) : List Resource :=
  { uri := "malloy://project/home/metadata"
    get := fun _ => projectMetadata project packages models }
    :: (packages.map register_package
        ++ models.map register_model
        ++ [{ uri := "malloy://healthcheck", get := fun _ => healthPayload }])

/-- Querying a registered resource by URI: look up the resource and evaluate
its handler. -/
def queryResource (rs : List Resource) (uri : String) : Option Json :=
  (rs.find? (fun r => r.uri == uri)).map (fun r => r.get ())

end Resources

namespace Server

/-- Modelled from the spec: the typed connection error raised by the
Connection Establisher (absent from the source snapshot, which keeps only an
older variant of `server.py`; the tests import `connect_to_publisher` and
`app_lifespan` from it).  Carries the attempt count and target URL as
structured context. -/
structure ConnectionError where
  attempts : Nat
  url : String
deriving DecidableEq

/-- Modelled from the spec: the live, verified client handle returned by the
Connection Establisher on success. -/
structure ClientHandle where
  url : String
deriving DecidableEq

/-- Modelled from the spec: success of one connection attempt requires both
that construction succeeds and that the verification call (list projects)
returns a non-empty project list; an empty catalog counts as a connection
failure and triggers retry. -/
def verifySucceeds (r : Except String (List String)) : Bool :=
  match r with
  | .ok (_ :: _) => true
  | _ => false

/-- Modelled from the spec: the retry loop of the Connection Establisher.
`verify k` is the outcome of the verification call on attempt `k` (0-indexed);
`fuel` is the number of attempts still permitted and `made` the attempts
already made.  Returns the total number of attempts made, paired with either
the verified client or the terminal connection error.  The backoff sleep
between attempts has no observable effect in this embedding; its delay value
is `backoff_delay`. -/
def connectLoop (verify : Nat → Except String (List String)) (url : String) :
    Nat → Nat → Nat × Except ConnectionError ClientHandle
  | 0, made => (made, .error { attempts := made, url := url })
  | fuel + 1, made =>
    if verifySucceeds (verify made) then (made + 1, .ok { url := url })
    else connectLoop verify url fuel (made + 1)

/-- Modelled from the spec: `connect(baseURL, maxRetries, baseDelay) -> Client`
— the Connection Establisher contract of spec section 4.1 (the implementation
is absent from the source snapshot).  Attempts up to `maxRetries` connections
and, after exhausting them, raises the connection error carrying the attempt
count and target URL. -/
def connect (verify : Nat → Except String (List String)) (url : String)
    (maxRetries : Nat) : Nat × Except ConnectionError ClientHandle :=
  connectLoop verify url maxRetries 0

/-- Modelled from the spec: the standalone exponential-backoff-with-jitter
computation of spec section 9 (no such function exists in the source
snapshot): delay before retry `k` (0-indexed) is
`baseDelay * 2 ^ k * jitterFactor`, with the jitter factor drawn from the
fixed band 0.8 to 1.2.  Time quantities are rationals. -/
def backoff_delay (k : Nat) (baseDelay jitterFactor : ℚ) : ℚ :=
  baseDelay * 2 ^ k * jitterFactor

/-- Modelled from the spec: the transport client handle as constructed by
`connect_to_publisher`, retaining the base URL it was constructed with. -/
structure MalloyAPIClient where
  base_url : String
deriving DecidableEq

/-- Modelled from the spec: `connect_to_publisher` (absent from the source
snapshot; the tests patch it and exercise the `MALLOY_PUBLISHER_ROOT_URL`
environment setting): the publisher base URL is taken from the single
environment-style setting — passed here as the optional environment value —
and falls back to the well-known default local address exactly when the
setting is unset. -/
def connect_to_publisher (env_url : Option String) : MalloyAPIClient :=
  { base_url := env_url.getD "http://localhost:4000" }

/-- Modelled from the spec: a lightweight model reference (path + type tag) as
returned by the model-listing call of the Catalog Loader (spec section 4.2,
absent from the source snapshot). -/
structure ModelRef where
  path : String
  type : String
deriving DecidableEq

/-- Modelled from the spec: a fully resolved model detail as returned by the
per-model detail fetch. -/
structure ModelDetail where
  path : String
  sources : List String
  queries : List String
deriving DecidableEq

/-- Modelled from the spec: the Transport Client call contract consumed by the
Catalog Loader — list packages, list models, fetch model detail — with
failure signalled through `Except`. -/
structure CatalogClient where
  list_packages : String → Except String (List Resources.Package)
  list_models : String → String → Except String (List ModelRef)
  get_model : String → String → String → Except String ModelDetail

/-- Modelled from the spec: the per-item load warning, recorded with the
failing item identity (package name or model path) and swallowed. -/
inductive LoadWarning where
  | packageListFailed (packageName : String)
  | modelFetchFailed (modelPath : String)
deriving DecidableEq

/-- Modelled from the spec: the fatal catalog load error with its structured
project/package context. -/
structure CatalogLoadError where
  message : String
  project : String
  packages : List String
deriving DecidableEq

/-- Modelled from the spec (section 4.2 step 3): fetch the full detail of each
model reference in a package; a failing fetch is recorded as a warning naming
the model path and that model is omitted, while sibling references continue to
be processed. -/
def fetchModels (c : CatalogClient) (project pkgName : String) :
    List ModelRef → List ModelDetail × List LoadWarning
  | [] => ([], [])
  | r :: rs =>
    match c.get_model project pkgName r.path with
    | .ok d =>
      let rest := fetchModels c project pkgName rs
      (d :: rest.1, rest.2)
    | .error _ =>
      let rest := fetchModels c project pkgName rs
      (rest.1, LoadWarning.modelFetchFailed r.path :: rest.2)

/-- Modelled from the spec (section 4.2 step 2): for each package, list its
model references; a failure listing one package is recorded as a warning
naming the package, that package contributes zero models, and the loop
continues with the remaining packages. -/
def loadPackages (c : CatalogClient) (project : String) :
    List Resources.Package → List ModelDetail × List LoadWarning
  | [] => ([], [])
  | p :: ps =>
    let here :=
      match c.list_models project p.name with
      | .error _ => (([] : List ModelDetail), [LoadWarning.packageListFailed p.name])
      | .ok refs => fetchModels c project p.name refs
    let rest := loadPackages c project ps
    (here.1 ++ rest.1, here.2 ++ rest.2)

/-- Modelled from the spec (section 4.2): `load(client, project)` — the
Catalog Loader, absent from the source snapshot (its behaviour is exercised by
`tests/test_server.py` through `app_lifespan`).  A package-listing failure or
an empty package list is fatal; per-item failures are tolerated; after all
packages and models are attempted, an empty accumulated model list raises the
fatal load error whose context carries the project name and every attempted
package name.  The warning log is returned alongside the result. -/
def load (c : CatalogClient) (project : String) :
    Except CatalogLoadError (List Resources.Package × List ModelDetail) × List LoadWarning :=
  match c.list_packages project with
  | .error e =>
    (.error { message := "Failed to list packages: " ++ e, project := project,
              packages := [] }, [])
  | .ok pkgs =>
    if pkgs.isEmpty then
      (.error { message := "No packages found", project := project,
                packages := [] }, [])
    else
      if (loadPackages c project pkgs).1.isEmpty then
        (.error { message := "No valid models found", project := project,
                  packages := pkgs.map (fun p => p.name) },
         (loadPackages c project pkgs).2)
      else
        (.ok (pkgs, (loadPackages c project pkgs).1), (loadPackages c project pkgs).2)

/-- Modelled from the spec: the validation error raised when both raw query
text and a named query are supplied (spec section 4.4; the full
`execute_malloy_query` with named-query support is absent from the source
snapshot and exercised only by `tests/test_query_executor.py`). -/
def mutuallyExclusiveError : MalloyError :=
  { message := "Parameters query and query_name are mutually exclusive"
    context := [] }

/-- Modelled from the spec: the validation error raised when a named query is
supplied without its required source name. -/
def missingSourceNameError : MalloyError :=
  { message := "Parameter source_name is required when using query_name"
    context := [] }

/-- Modelled from the spec: the query-selection parameters of the full query
executor — raw query text, or a named query as source name plus query name,
each optional. -/
structure FullQueryParams where
  project_name : String
  package_name : String
  path : String
  query : Option String
  source_name : Option String
  query_name : Option String
deriving DecidableEq

/-- Modelled from the spec (section 4.4): the full `execute_malloy_query`
(absent from the source snapshot; its call contract is exercised by
`tests/test_query_executor.py`).  Client-side validation runs before any
network call: supplying both raw query text and a named query, or a named
query without its source name, raises a validation error.  The transport
client's execute-query operation is `execQuery`, and `calls` is its invocation
counter, threaded as explicit state and incremented exactly when the network
call is issued. -/
def execute_malloy_query (execQuery : FullQueryParams → Except String Tools.RawQueryResult)
    (calls : Nat) (project_name package_name model_path : String)
    (query source_name query_name : Option String) :
    Nat × Except MalloyError Tools.RawQueryResult :=
  if query.isSome && query_name.isSome then
    (calls, .error mutuallyExclusiveError)
  else if query_name.isSome && source_name.isNone then
    (calls, .error missingSourceNameError)
  else
    match execQuery { project_name := project_name, package_name := package_name,
                      path := model_path, query := query,
                      source_name := source_name, query_name := query_name } with
    | .error e =>
      (calls + 1, .error { message := "Failed to execute query: " ++ e,
                           context := [("project", project_name),
                                       ("package", package_name),
                                       ("path", model_path)] })
    | .ok r => (calls + 1, .ok r)

/-- A concrete catalog client: two packages, the first listing zero models and
the second failing its model-listing call. -/
def clientBothEmpty : CatalogClient :=
  { list_packages := fun _ => .ok [{ name := "a", description := none, version := none },
      { name := "b", description := none, version := none }]
    list_models := fun _ pkg => if pkg = "b" then .error "listing failed" else .ok []
    get_model := fun _ _ _ => .error "unused" }

/-- A concrete catalog client: the first package resolves one model and the
second fails its model-listing call. -/
def clientPartialFailure : CatalogClient :=
  { list_packages := fun _ => .ok [{ name := "a", description := none, version := none },
      { name := "b", description := none, version := none }]
    list_models := fun _ pkg =>
      if pkg = "b" then .error "listing failed"
      else .ok [{ path := "m1", type := "source" }]
    get_model := fun _ _ path => .ok { path := path, sources := [], queries := [] } }

/-- A concrete catalog client: every model-detail fetch fails, so a full load
attempt accumulates zero models. -/
def clientAllModelsFail : CatalogClient :=
  { list_packages := fun _ => .ok [{ name := "a", description := none, version := none },
      { name := "b", description := none, version := none }]
    list_models := fun _ _ => .ok [{ path := "m1", type := "source" }]
    get_model := fun _ _ _ => .error "fetch failed" }

/-- A concrete catalog client: one package with two models, the second model
failing its detail fetch. -/
def clientSecondModelFails : CatalogClient :=
  { list_packages := fun _ => .ok [{ name := "a", description := none, version := none }]
    list_models := fun _ _ => .ok [{ path := "m1", type := "source" },
      { path := "m2", type := "source" }]
    get_model := fun _ _ path =>
      if path = "m2" then .error "fetch failed"
      else .ok { path := path, sources := [], queries := [] } }

end Server

/-- C9: each of the three query-result payload fields is independently
optional: whenever the remote call succeeds and every non-empty field decodes,
the query executor returns successfully, an omitted (empty) field comes back
as the empty dict/list, and each present field comes back as its decoded
value. -/
theorem qe_fields_independently_optional (jsonLoads : String → Except String Json)
    (execQuery : Tools.QueryParams → Except String Tools.RawQueryResult)
    (query model_path : String) (raw : Tools.RawQueryResult) (ds md qr : Json)
    (hok : execQuery (QueryExecutor.mkParams query model_path) = .ok raw)
    (hds : QueryExecutor.parseOrDefault jsonLoads raw.data_styles (Json.obj []) = .ok ds)
    (hmd : QueryExecutor.parseOrDefault jsonLoads raw.model_def (Json.obj []) = .ok md)
    (hqr : QueryExecutor.parseOrDefault jsonLoads raw.query_result (Json.arr []) = .ok qr) :
    QueryExecutor.execute_malloy_query jsonLoads execQuery query model_path
      = .ok { data_styles := ds, model_def := md, query_result := qr } ∧
    (raw.data_styles = "" → ds = Json.obj []) ∧
    (raw.model_def = "" → md = Json.obj []) ∧
    (raw.query_result = "" → qr = Json.arr []) := by
  refine ⟨by simp [QueryExecutor.execute_malloy_query, hok, hds, hmd, hqr], ?_, ?_, ?_⟩
  · intro h
    rw [QueryExecutor.parseOrDefault, if_pos h] at hds
    cases hds; rfl
  · intro h
    rw [QueryExecutor.parseOrDefault, if_pos h] at hmd
    cases hmd; rfl
  · intro h
    rw [QueryExecutor.parseOrDefault, if_pos h] at hqr
    cases hqr; rfl

/-- Closed witness for C9: a remote result whose `model_def` field is present
and decodes while `data_styles` and `query_result` are omitted (empty). -/
theorem qe_fields_independently_optional_witness :
    QueryExecutor.execute_malloy_query
      (fun s => if s = "md" then .ok (Json.str "md-decoded") else .error "boom")
      (fun _ => .ok { data_styles := "", model_def := "md", query_result := "" })
      "run: q" "pkg/model.malloy"
      = .ok { data_styles := Json.obj [], model_def := Json.str "md-decoded",
              query_result := Json.arr [] } ∧
    ((Tools.RawQueryResult.mk "" "md" "").data_styles = "" → Json.obj [] = Json.obj []) ∧
    ((Tools.RawQueryResult.mk "" "md" "").model_def = "" → Json.str "md-decoded" = Json.obj []) ∧
    ((Tools.RawQueryResult.mk "" "md" "").query_result = "" → Json.arr [] = Json.arr []) :=
  qe_fields_independently_optional
    (fun s => if s = "md" then .ok (Json.str "md-decoded") else .error "boom")
    (fun _ => .ok { data_styles := "", model_def := "md", query_result := "" })
    "run: q" "pkg/model.malloy"
    { data_styles := "", model_def := "md", query_result := "" }
    (Json.obj []) (Json.str "md-decoded") (Json.arr [])
    rfl rfl rfl rfl

/-- C6: If the remote call succeeds but the result payload cannot be decoded,
`tools.py`'s query executor raises the parse error (it does not return a
partial result), and that parse error is distinct from every query execution
error it can raise on remote failure. -/
theorem parse_error_distinct (jsonLoads : String → Except String Json)
    (execQuery : Tools.QueryParams → Except String Tools.RawQueryResult)
    (query model_path project_name : String) (raw : Tools.RawQueryResult)
    (msg : String)
    (hok : execQuery (Tools.mkParams query model_path project_name) = .ok raw)
    (hbad : Tools.parseResult jsonLoads raw = .error msg) :
    Tools.execute_malloy_query jsonLoads execQuery query model_path project_name
      = .error (Tools.parseQueryError msg model_path) ∧
    ∀ e q mp pn, Tools.parseQueryError msg model_path ≠ Tools.execQueryError e q mp pn := by
  constructor
  · simp [Tools.execute_malloy_query, hok, hbad]
  · intro e q mp pn h
    have hctx := congrArg (fun err => err.context.length) h
    simp [Tools.parseQueryError, Tools.execQueryError] at hctx

/-- Closed witness for C6: a concrete client whose remote call succeeds with a
payload whose row-data field fails to decode. -/
theorem parse_error_distinct_witness :
    Tools.execute_malloy_query (fun _ => .error "bad row data")
      (fun _ => .ok { data_styles := "", model_def := "", query_result := "not json" })
      "run: q" "pkg/model.malloy" "home"
      = .error (Tools.parseQueryError "bad row data" "pkg/model.malloy") ∧
    ∀ e q mp pn, Tools.parseQueryError "bad row data" "pkg/model.malloy"
      ≠ Tools.execQueryError e q mp pn :=
  parse_error_distinct (fun _ => .error "bad row data")
    (fun _ => .ok { data_styles := "", model_def := "", query_result := "not json" })
    "run: q" "pkg/model.malloy" "home"
    { data_styles := "", model_def := "", query_result := "not json" }
    "bad row data" rfl rfl

/-- Helper: `find?` skips a head element on which the predicate is false. -/
theorem find?_cons_false {α : Type} (p : α → Bool) (a : α) (l : List α)
    (h : p a = false) : (a :: l).find? p = l.find? p := by
  simp [List.find?, h]

/-- Helper: `find?` over an append skips a first part with no match. -/
theorem find?_append_none {α : Type} (p : α → Bool) (l1 l2 : List α)
    (h : l1.find? p = none) : (l1 ++ l2).find? p = l2.find? p := by
  induction l1 with
  | nil => rfl
  | cons a l ih =>
    rw [List.cons_append]
    cases hpa : p a with
    | true => simp [List.find?, hpa] at h
    | false =>
      rw [find?_cons_false p a (l ++ l2) hpa]
      rw [find?_cons_false p a l hpa] at h
      exact ih h

/-- Helper: `find?` over a mapped list finds nothing when the predicate fails
on every image. -/
theorem find?_map_none {α β : Type} (p : β → Bool) (f : α → β) (l : List α)
    (h : ∀ a, p (f a) = false) : (l.map f).find? p = none := by
  induction l with
  | nil => rfl
  | cons a l ih =>
    rw [List.map_cons, find?_cons_false p (f a) (l.map f) (h a)]
    exact ih

/-- Helper: a package resource never shadows the health-check URI (its URI is
longer than `malloy://healthcheck`). -/
theorem register_package_uri_ne_health (p : Resources.Package) :
    ((Resources.register_package p).uri == "malloy://healthcheck") = false := by
  simp only [Resources.register_package, beq_eq_false_iff_ne, ne_eq]
  intro h
  have hl := congrArg String.length h
  rw [String.length_append] at hl
  have h30 : ("malloy://project/home/package/" : String).length = 30 := rfl
  have h20 : ("malloy://healthcheck" : String).length = 20 := rfl
  rw [h30, h20] at hl
  omega

/-- Helper: a model resource never shadows the health-check URI. -/
theorem register_model_uri_ne_health (m : Resources.Model) :
    ((Resources.register_model m).uri == "malloy://healthcheck") = false := by
  simp only [Resources.register_model, beq_eq_false_iff_ne, ne_eq]
  intro h
  have hl := congrArg String.length h
  rw [String.length_append] at hl
  have h28 : ("malloy://project/home/model/" : String).length = 28 := rfl
  have h20 : ("malloy://healthcheck" : String).length = 20 := rfl
  rw [h28, h20] at hl
  omega

/-- Helper: `find?` over an append finds nothing when neither part has a
match. -/
theorem find?_append_eq_none {α : Type} (p : α → Bool) (l1 l2 : List α)
    (h1 : l1.find? p = none) (h2 : l2.find? p = none) :
    (l1 ++ l2).find? p = none := by
  rw [find?_append_none p l1 l2 h1]
  exact h2

/-- C10: the health-check resource is constant — for every catalog state
(project, package set, model set), querying `malloy://healthcheck` returns
exactly the fixed payload with status healthy and version 0.1.0. -/
theorem healthcheck_constant (project : Resources.Project)
    (packages : List Resources.Package) (models : List Resources.Model) :
    Resources.queryResource (Resources.register_resources project packages models)
      "malloy://healthcheck" = some Resources.healthPayload := by
  have hhead : (fun (r : Resources.Resource) => r.uri == "malloy://healthcheck")
      ({ uri := "malloy://project/home/metadata",
         get := fun _ => Resources.projectMetadata project packages models } :
        Resources.Resource) = false := by simp
  unfold Resources.queryResource Resources.register_resources
  rw [find?_cons_false (fun (r : Resources.Resource) => r.uri == "malloy://healthcheck")
    { uri := "malloy://project/home/metadata",
      get := fun _ => Resources.projectMetadata project packages models }
    (List.map Resources.register_package packages ++ List.map Resources.register_model models ++
      [({ uri := "malloy://healthcheck", get := fun _ => Resources.healthPayload } :
          Resources.Resource)])
    hhead]
  rw [find?_append_none (fun (r : Resources.Resource) => r.uri == "malloy://healthcheck")
    (List.map Resources.register_package packages ++ List.map Resources.register_model models)
    [({ uri := "malloy://healthcheck", get := fun _ => Resources.healthPayload } :
        Resources.Resource)]
    (find?_append_eq_none (fun (r : Resources.Resource) => r.uri == "malloy://healthcheck")
      (List.map Resources.register_package packages)
      (List.map Resources.register_model models)
      (find?_map_none (fun (r : Resources.Resource) => r.uri == "malloy://healthcheck")
        Resources.register_package packages register_package_uri_ne_health)
      (find?_map_none (fun (r : Resources.Resource) => r.uri == "malloy://healthcheck")
        Resources.register_model models register_model_uri_ne_health))]
  rfl

/-- Helper: under a verifier that never succeeds, the retry loop consumes all
its fuel and reports the total attempt count in the terminal error. -/
theorem connectLoop_always_fail (verify : Nat → Except String (List String))
    (url : String) (hfail : ∀ k, Server.verifySucceeds (verify k) = false) :
    ∀ fuel made, Server.connectLoop verify url fuel made
      = (made + fuel, .error { attempts := made + fuel, url := url })
  | 0, made => by simp [Server.connectLoop]
  | fuel + 1, made => by
    have hstep := connectLoop_always_fail verify url hfail fuel (made + 1)
    rw [Server.connectLoop, hfail made]
    simp only [Bool.false_eq_true, if_false]
    rw [hstep]
    have harith : made + 1 + fuel = made + (fuel + 1) := by omega
    rw [harith]

/-- C1: for every retry count n >= 1 and a publisher client that always fails
its verification call, connection establishment attempts exactly n connections
and then raises the typed connection error whose structured context carries
the attempt count (equal to n) and the target URL. -/
theorem connect_exhausts_retries (verify : Nat → Except String (List String))
    (url : String) (n : Nat) (hn : 1 ≤ n)
    (hfail : ∀ k, Server.verifySucceeds (verify k) = false) :
    Server.connect verify url n = (n, .error { attempts := n, url := url }) := by
  unfold Server.connect
  have h := connectLoop_always_fail verify url hfail n 0
  simpa using h

/-- Closed witness for C1: three retries against a client whose verification
call always fails with a refused connection. -/
theorem connect_exhausts_retries_witness :
    1 ≤ 3 ∧ Server.connect (fun _ => .error "connection refused")
      "http://localhost:4000" 3
      = (3, .error { attempts := 3, url := "http://localhost:4000" }) :=
  ⟨by decide, connect_exhausts_retries (fun _ => .error "connection refused")
    "http://localhost:4000" 3 (by decide) (fun _ => rfl)⟩

/-- C7: the delay before retry k equals baseDelay * 2^k * jitterFactor, and
for every jitter factor in the fixed band [0.8, 1.2] it lies within
[baseDelay * 2^k * 0.8, baseDelay * 2^k * 1.2]. -/
theorem backoff_delay_in_band (k : Nat) (b jf : ℚ) (hb : 0 ≤ b)
    (hlo : 4/5 ≤ jf) (hhi : jf ≤ 6/5) :
    Server.backoff_delay k b jf = b * 2 ^ k * jf ∧
    b * 2 ^ k * (4/5) ≤ Server.backoff_delay k b jf ∧
    Server.backoff_delay k b jf ≤ b * 2 ^ k * (6/5) := by
  have h0 : (0:ℚ) ≤ b * 2 ^ k := mul_nonneg hb (by positivity)
  exact ⟨rfl, mul_le_mul_of_nonneg_left hlo h0, mul_le_mul_of_nonneg_left hhi h0⟩

/-- Closed witness for C7: attempt index 3, base delay 1/2, jitter factor 1. -/
theorem backoff_delay_in_band_witness :
    (0:ℚ) ≤ 1/2 ∧ (4:ℚ)/5 ≤ 1 ∧ (1:ℚ) ≤ 6/5 ∧
    (Server.backoff_delay 3 (1/2) 1 = (1/2) * 2 ^ 3 * 1 ∧
     (1/2) * 2 ^ 3 * (4/5) ≤ Server.backoff_delay 3 (1/2) 1 ∧
     Server.backoff_delay 3 (1/2) 1 ≤ (1/2) * 2 ^ 3 * (6/5)) :=
  ⟨by norm_num, by norm_num, by norm_num,
   backoff_delay_in_band 3 (1/2) 1 (by norm_num) (by norm_num) (by norm_num)⟩

/-- C8: the publisher base URL used to construct the transport client is the
single environment-style setting when set, and falls back to the well-known
default local address exactly when the setting is unset. -/
theorem publisher_url_env_or_default :
    (Server.connect_to_publisher none).base_url = "http://localhost:4000" ∧
    ∀ u, (Server.connect_to_publisher (some u)).base_url = u :=
  ⟨rfl, fun _ => rfl⟩

/-- C2: the catalog-loading result is only ever constructed when at least one
model was successfully resolved; whenever, after all packages and models are
attempted, the accumulated model list is empty, the fatal catalog load error
carries the project name and every attempted package name. -/
theorem load_empty_models_fatal :
    (∀ (c : Server.CatalogClient) (project : String) r ws,
        Server.load c project = (.ok r, ws) → r.2 ≠ []) ∧
    (∀ (c : Server.CatalogClient) (project : String) (pkgs : List Resources.Package),
        c.list_packages project = .ok pkgs → pkgs ≠ [] →
        (Server.loadPackages c project pkgs).1 = [] →
        (Server.load c project).1
          = .error { message := "No valid models found", project := project,
                     packages := pkgs.map (fun p => p.name) }) := by
  constructor
  · intro c project r ws h
    unfold Server.load at h
    split at h
    · simp at h
    · split at h
      · simp at h
      · split at h
        · simp at h
        · rename_i hlm
          rw [Prod.mk.injEq] at h
          obtain ⟨h1, -⟩ := h
          injection h1 with h1
          subst h1
          intro hr2
          simp only [Prod.snd] at hr2
          exact hlm (by rw [hr2]; rfl)
  · intro c project pkgs hlp hne hempty
    have hne' : pkgs.isEmpty = false := by
      cases pkgs with
      | nil => exact absurd rfl hne
      | cons p ps => rfl
    unfold Server.load
    split
    · rename_i e heq
      rw [hlp] at heq
      cases heq
    · rename_i pkgs2 heq
      rw [hlp] at heq
      injection heq with heq2
      subst heq2
      rw [hne']
      simp only [Bool.false_eq_true, if_false]
      rw [hempty]
      simp

/-- Closed witness for C2: a project with two packages whose every model
detail fetch fails, so a full load attempt accumulates zero models; the load
raises the fatal error listing both attempted package names. -/
theorem load_empty_models_fatal_witness :
    Server.clientAllModelsFail.list_packages "home"
      = .ok [{ name := "a", description := none, version := none },
             { name := "b", description := none, version := none }] ∧
    ([{ name := "a", description := none, version := none },
      { name := "b", description := none, version := none }] :
        List Resources.Package) ≠ [] ∧
    (Server.loadPackages Server.clientAllModelsFail "home"
      [{ name := "a", description := none, version := none },
       { name := "b", description := none, version := none }]).1 = [] ∧
    (Server.load Server.clientAllModelsFail "home").1
      = .error { message := "No valid models found", project := "home",
                 packages := ["a", "b"] } :=
  ⟨rfl, by decide, rfl,
   load_empty_models_fatal.2 Server.clientAllModelsFail "home"
     [{ name := "a", description := none, version := none },
      { name := "b", description := none, version := none }]
     rfl (by decide) rfl⟩

/-- Counterexample for C3 as stated: a project with two packages whose second
package's model-listing call fails and whose first package legitimately lists
zero models.  The failure is caught and logged as a warning naming the
package, yet the load does raise an error — the fatal no-valid-models check of
the post-condition fires because the surviving packages contributed no models,
contradicting the unconditional "no error is raised". -/
theorem load_package_failure_counterexample :
    (Server.load Server.clientBothEmpty "home").1
      = .error { message := "No valid models found", project := "home",
                 packages := ["a", "b"] } ∧
    (Server.load Server.clientBothEmpty "home").2
      = [Server.LoadWarning.packageListFailed "b"] :=
  ⟨rfl, rfl⟩

/-- Helper: the per-package model listing loop distributes over list append,
in processing order. -/
theorem loadPackages_append (c : Server.CatalogClient) (project : String)
    (l1 l2 : List Resources.Package) :
    Server.loadPackages c project (l1 ++ l2)
      = ((Server.loadPackages c project l1).1
           ++ (Server.loadPackages c project l2).1,
         (Server.loadPackages c project l1).2
           ++ (Server.loadPackages c project l2).2) := by
  induction l1 with
  | nil => simp [Server.loadPackages]
  | cons q qs ih =>
    cases hm : c.list_models project q.name with
    | error e0 => simp [Server.loadPackages, hm, ih]
    | ok refs => simp [Server.loadPackages, hm, ih]

/-- C3 (amended): for every project whose package list contains a package
whose model-listing call fails, at any position, the failure is caught and
logged as a warning naming that package, the package contributes zero models,
the loop does not abort, and — provided the remaining packages contribute at
least one model between them — the load returns exactly the other packages'
models and raises no error. -/
theorem load_tolerates_package_failure (c : Server.CatalogClient)
    (project : String) (ps1 ps2 : List Resources.Package)
    (p : Resources.Package) (e : String)
    (hlp : c.list_packages project = .ok (ps1 ++ p :: ps2))
    (hm : c.list_models project p.name = .error e)
    (hne : (Server.loadPackages c project (ps1 ++ ps2)).1 ≠ []) :
    (Server.load c project).1
      = .ok (ps1 ++ p :: ps2, (Server.loadPackages c project (ps1 ++ ps2)).1) ∧
    Server.LoadWarning.packageListFailed p.name ∈ (Server.load c project).2 := by
  have hcons : Server.loadPackages c project (p :: ps2)
      = ((Server.loadPackages c project ps2).1,
         Server.LoadWarning.packageListFailed p.name
           :: (Server.loadPackages c project ps2).2) := by
    simp [Server.loadPackages, hm]
  have happ := loadPackages_append c project ps1 (p :: ps2)
  rw [hcons] at happ
  have h2 := loadPackages_append c project ps1 ps2
  have h2m : (Server.loadPackages c project (ps1 ++ ps2)).1
      = (Server.loadPackages c project ps1).1
        ++ (Server.loadPackages c project ps2).1 := by
    rw [h2]
  have hMfull : Server.loadPackages c project (ps1 ++ p :: ps2)
      = ((Server.loadPackages c project (ps1 ++ ps2)).1,
         (Server.loadPackages c project ps1).2
           ++ Server.LoadWarning.packageListFailed p.name
             :: (Server.loadPackages c project ps2).2) := by
    rw [happ, h2m]
  have hpkgs_ne : (ps1 ++ p :: ps2).isEmpty = false := by
    cases ps1 with
    | nil => rfl
    | cons q qs => rfl
  have hne2 : (Server.loadPackages c project (ps1 ++ ps2)).1.isEmpty = false := by
    cases hl : (Server.loadPackages c project (ps1 ++ ps2)).1 with
    | nil => exact absurd hl hne
    | cons d ds => rfl
  have hload : Server.load c project
      = (.ok (ps1 ++ p :: ps2, (Server.loadPackages c project (ps1 ++ ps2)).1),
         (Server.loadPackages c project ps1).2
           ++ Server.LoadWarning.packageListFailed p.name
             :: (Server.loadPackages c project ps2).2) := by
    unfold Server.load
    split
    · rename_i e0 heq
      rw [hlp] at heq
      cases heq
    · rename_i pkgs2 heq
      rw [hlp] at heq
      injection heq with heq2
      subst heq2
      simp [hMfull, hne2, hpkgs_ne]
  refine ⟨?_, ?_⟩
  · rw [hload]
  · rw [hload]
    simp

/-- Closed witness for the amended C3: two concrete packages, the second
failing its model-listing call, the first resolving one model. -/
theorem load_tolerates_package_failure_witness :
    Server.clientPartialFailure.list_packages "home"
      = .ok ([{ name := "a", description := none, version := none }]
             ++ ({ name := "b", description := none, version := none } :
                  Resources.Package) :: []) ∧
    Server.clientPartialFailure.list_models "home" "b" = .error "listing failed" ∧
    (Server.loadPackages Server.clientPartialFailure "home"
      ([{ name := "a", description := none, version := none }]
        ++ ([] : List Resources.Package))).1 ≠ [] ∧
    ((Server.load Server.clientPartialFailure "home").1
      = .ok ([{ name := "a", description := none, version := none }]
               ++ ({ name := "b", description := none, version := none } :
                    Resources.Package) :: [],
             (Server.loadPackages Server.clientPartialFailure "home"
               ([{ name := "a", description := none, version := none }]
                 ++ ([] : List Resources.Package))).1) ∧
     Server.LoadWarning.packageListFailed "b"
       ∈ (Server.load Server.clientPartialFailure "home").2) :=
  ⟨rfl, rfl, by decide,
   load_tolerates_package_failure Server.clientPartialFailure "home"
     [{ name := "a", description := none, version := none }] []
     { name := "b", description := none, version := none }
     "listing failed" rfl rfl (by decide)⟩


/-- Helper: the per-package model fetch distributes over list append, in
processing order. -/
theorem fetchModels_append (c : Server.CatalogClient) (project pkgName : String)
    (l1 l2 : List Server.ModelRef) :
    Server.fetchModels c project pkgName (l1 ++ l2)
      = ((Server.fetchModels c project pkgName l1).1
           ++ (Server.fetchModels c project pkgName l2).1,
         (Server.fetchModels c project pkgName l1).2
           ++ (Server.fetchModels c project pkgName l2).2) := by
  induction l1 with
  | nil => simp [Server.fetchModels]
  | cons r rs ih =>
    cases hg : c.get_model project pkgName r.path with
    | ok d => simp [Server.fetchModels, hg, ih]
    | error e0 => simp [Server.fetchModels, hg, ih]

/-- Helper: every reference whose detail fetch succeeds contributes its detail
to the fetch result. -/
theorem mem_fetchModels_of_ok (c : Server.CatalogClient)
    (project pkgName : String) (refs : List Server.ModelRef)
    (s : Server.ModelRef) (d : Server.ModelDetail) (hs : s ∈ refs)
    (hd : c.get_model project pkgName s.path = .ok d) :
    d ∈ (Server.fetchModels c project pkgName refs).1 := by
  induction refs with
  | nil => cases hs
  | cons r rs ih =>
    cases hs with
    | head => simp [Server.fetchModels, hd]
    | tail _ hs2 =>
      cases hg : c.get_model project pkgName r.path with
      | ok d0 =>
        simp only [Server.fetchModels, hg]
        exact List.mem_cons_of_mem d0 (ih hs2)
      | error e0 =>
        simp only [Server.fetchModels, hg]
        exact ih hs2

/-- C4: a failure fetching one model's detail is caught and recorded as a
warning naming the failing model's path, that model is omitted from the
result, and sibling models in the same package continue to be processed —
every sibling whose fetch succeeds is returned. -/
theorem fetch_tolerates_model_failure (c : Server.CatalogClient)
    (project pkgName : String) (refs1 refs2 : List Server.ModelRef)
    (r : Server.ModelRef) (e : String)
    (hfail : c.get_model project pkgName r.path = .error e) :
    (Server.fetchModels c project pkgName (refs1 ++ r :: refs2)).1
      = (Server.fetchModels c project pkgName refs1).1
        ++ (Server.fetchModels c project pkgName refs2).1 ∧
    Server.LoadWarning.modelFetchFailed r.path
      ∈ (Server.fetchModels c project pkgName (refs1 ++ r :: refs2)).2 ∧
    ∀ s d, s ∈ refs1 ++ refs2 → c.get_model project pkgName s.path = .ok d →
      d ∈ (Server.fetchModels c project pkgName (refs1 ++ r :: refs2)).1 := by
  have hcons : Server.fetchModels c project pkgName (r :: refs2)
      = ((Server.fetchModels c project pkgName refs2).1,
         Server.LoadWarning.modelFetchFailed r.path
           :: (Server.fetchModels c project pkgName refs2).2) := by
    simp [Server.fetchModels, hfail]
  have happ := fetchModels_append c project pkgName refs1 (r :: refs2)
  rw [hcons] at happ
  refine ⟨by rw [happ], by rw [happ]; simp, ?_⟩
  intro s d hs hd
  rw [happ]
  rcases List.mem_append.mp hs with h1 | h2
  · exact List.mem_append_left _
      (mem_fetchModels_of_ok c project pkgName refs1 s d h1 hd)
  · exact List.mem_append_right _
      (mem_fetchModels_of_ok c project pkgName refs2 s d h2 hd)

/-- Closed witness for C4: one package with two models whose second model's
detail fetch fails; the first model's detail is returned and the warning
names the second model's path. -/
theorem fetch_tolerates_model_failure_witness :
    Server.clientSecondModelFails.get_model "home" "a" "m2" = .error "fetch failed" ∧
    ((Server.fetchModels Server.clientSecondModelFails "home" "a"
        ([{ path := "m1", type := "source" }]
          ++ ({ path := "m2", type := "source" } : Server.ModelRef) :: [])).1
      = (Server.fetchModels Server.clientSecondModelFails "home" "a"
          [{ path := "m1", type := "source" }]).1
        ++ (Server.fetchModels Server.clientSecondModelFails "home" "a" []).1 ∧
     Server.LoadWarning.modelFetchFailed "m2"
       ∈ (Server.fetchModels Server.clientSecondModelFails "home" "a"
           ([{ path := "m1", type := "source" }]
             ++ ({ path := "m2", type := "source" } : Server.ModelRef) :: [])).2 ∧
     ∀ s d, s ∈ [{ path := "m1", type := "source" }] ++ ([] : List Server.ModelRef) →
       Server.clientSecondModelFails.get_model "home" "a" s.path = .ok d →
       d ∈ (Server.fetchModels Server.clientSecondModelFails "home" "a"
             ([{ path := "m1", type := "source" }]
               ++ ({ path := "m2", type := "source" } : Server.ModelRef) :: [])).1) :=
  ⟨rfl, fetch_tolerates_model_failure Server.clientSecondModelFails "home" "a"
    [{ path := "m1", type := "source" }] []
    { path := "m2", type := "source" } "fetch failed" rfl⟩

/-- C5: supplying both raw query text and a named query, or a named query
without its required source name, raises a client-side validation error and
the transport client's execute-query operation records zero invocations (its
invocation counter is unchanged). -/
theorem query_validation_no_network
    (execQuery : Server.FullQueryParams → Except String Tools.RawQueryResult)
    (calls : Nat) (project_name package_name model_path : String)
    (query source_name query_name : Option String)
    (h : (query.isSome && query_name.isSome) = true ∨
         (query_name.isSome && source_name.isNone) = true) :
    (Server.execute_malloy_query execQuery calls project_name package_name
        model_path query source_name query_name).1 = calls ∧
    ((Server.execute_malloy_query execQuery calls project_name package_name
        model_path query source_name query_name).2
          = .error Server.mutuallyExclusiveError ∨
     (Server.execute_malloy_query execQuery calls project_name package_name
        model_path query source_name query_name).2
          = .error Server.missingSourceNameError) := by
  by_cases h1 : (query.isSome && query_name.isSome) = true
  · constructor
    · simp [Server.execute_malloy_query, h1]
    · left
      simp [Server.execute_malloy_query, h1]
  · have h2 : (query_name.isSome && source_name.isNone) = true := by
      cases h with
      | inl hx => exact absurd hx h1
      | inr hx => exact hx
    constructor
    · simp [Server.execute_malloy_query, h1, h2]
    · right
      simp [Server.execute_malloy_query, h1, h2]

/-- Closed witness for C5: both raw query text and a named query supplied;
the validation error is raised and the invocation counter stays at zero. -/
theorem query_validation_no_network_witness :
    (((some "run: q" : Option String).isSome
        && (some "named" : Option String).isSome) = true ∨
     ((some "named" : Option String).isSome
        && (none : Option String).isNone) = true) ∧
    ((Server.execute_malloy_query
        (fun _ => .ok { data_styles := "", model_def := "", query_result := "" })
        0 "home" "pkg" "pkg/m.malloy" (some "run: q") none (some "named")).1 = 0 ∧
     ((Server.execute_malloy_query
        (fun _ => .ok { data_styles := "", model_def := "", query_result := "" })
        0 "home" "pkg" "pkg/m.malloy" (some "run: q") none (some "named")).2
          = .error Server.mutuallyExclusiveError ∨
      (Server.execute_malloy_query
        (fun _ => .ok { data_styles := "", model_def := "", query_result := "" })
        0 "home" "pkg" "pkg/m.malloy" (some "run: q") none (some "named")).2
          = .error Server.missingSourceNameError)) :=
  ⟨Or.inl (by decide),
   query_validation_no_network
     (fun _ => .ok { data_styles := "", model_def := "", query_result := "" })
     0 "home" "pkg" "pkg/m.malloy" (some "run: q") none (some "named")
     (Or.inl (by decide))⟩
